import Mathlib

/-!
# todogolang: the HTTP handlers of `main.go` over a model of the todo collection

The five gin handlers of `main.go` (`getTodoes`, `createTodo`, `updateTodo`,
`deleteTodo`, `deleteTodoAll`) and `returnErr` are embedded as pure functions.
A handler takes what the outside world decides during the request (an
`Outcome`: which driver call returns an error, which id the driver generates),
the request data and the collection before the request, and gives back the
HTTP response, the collection after the request and the list of driver calls
it issued.  A panic inside a handler is answered by the Recovery middleware
that `gin.Default()` installs.

The collection is the list of its documents in cursor order.  The driver
calls (`Find`, `InsertOne`, `UpdateOne`, `DeleteOne`, `DeleteMany`,
`ObjectIDFromHex`, JSON binding and rendering) are library code; they are
written out here after their documented behaviour.
-/

namespace Todogolang

/-! ## Data model -/

/-- The type `bson.ObjectID`, an array of twelve bytes, kept as the list of its byte values. -/
structure ObjectID where
  bytes : List Nat
deriving DecidableEq, Repr

/-- The value `bson.NilObjectID`: twelve zero bytes, the zero value of the type. -/
def NilObjectID : ObjectID := ⟨List.replicate 12 0⟩

/-- The method `ObjectID.IsZero`: whether the id is the zero value. -/
def ObjectID.IsZero (id : ObjectID) : Bool := decide (id = NilObjectID)

/-- The struct `Todo` of `main.go`, fields in source order. -/
structure Todo where
  ID : ObjectID
  Completed : Bool
  Body : String
deriving DecidableEq, Repr

/-- The collection `todos`: its documents, in the order a cursor delivers them. -/
abbrev Store := List Todo

/-- A Go value of type `[]Todo`: `none` is the nil slice, `some ts` a non-nil slice. -/
abbrev TodoSlice := Option (List Todo)

/-- Go `append(todos, todo)`: appending to the nil slice allocates a slice. -/
def TodoSlice.append : TodoSlice → Todo → TodoSlice
  | none, t => some [t]
  | some ts, t => some (ts ++ [t])

/-- The response bodies. `message text` is the object built by `gin.H` with the
single key `message`; `todo` is one rendered Todo; `array` is a JSON array of
Todos; `null` is the JSON literal `null`; `empty` is a response without any
body (no handler wrote one). -/
inductive JSON where
  | empty
  | null
  | message (text : String)
  | todo (t : Todo)
  | array (ts : List Todo)
deriving DecidableEq, Repr

/-- JSON rendering of a `[]Todo` by `encoding/json`: a nil slice is written as
`null`, a non-nil slice as an array. -/
def renderTodos : TodoSlice → JSON
  | none => JSON.null
  | some ts => JSON.array ts

/-- What `ctx.JSON(status, body)` sends. -/
structure Response where
  status : Nat
  body : JSON
deriving DecidableEq, Repr

/-- A call the handler issues on the collection. -/
inductive Call where
  | find
  | insertOne (doc : Todo)
  | updateOne (id : ObjectID) (completed : Bool)
  | deleteOne (id : ObjectID)
  | deleteMany
deriving DecidableEq, Repr

/-- What the store and the driver decide during one request: the error each
driver call returns (`none`: it succeeds), at which position the cursor stops
early because fetching failed (`Cursor.Next` then returns false), and the id
the driver generates for a document sent without `_id`. -/
structure Outcome where
  findErr : Option String
  cursorBreak : Option Nat
  decodeErr : Nat → Option String
  insertErr : Option String
  updateErr : Option String
  deleteErr : Option String
  newID : ObjectID

/-- The JSON payload of a POST after parsing: each key of `Todo` present or absent. -/
structure Payload where
  id : Option ObjectID
  completed : Option Bool
  body : Option String
deriving DecidableEq, Repr

/-- The request body of a POST: bytes JSON binding rejects (not JSON, a JSON
value that is neither an object nor `null`, a key of the wrong type), the JSON
literal `null`, or a JSON object. -/
inductive RequestBody where
  | malformed (err : String)
  | null
  | json (p : Payload)
deriving DecidableEq, Repr

/-- How the call `ctx.BindJSON(&todo)` ends: it returns an error, it returns nil
with `todo` pointing to the filled struct, or it panics. -/
inductive Bound where
  | error (err : String)
  | ok (todo : Todo)
  | panic
deriving DecidableEq, Repr

/-- Result of a handler: the response, the collection afterwards, the driver calls issued. -/
structure Result where
  resp : Response
  store : Store
  calls : List Call
deriving DecidableEq, Repr

/-! ## Library operations -/

/-- Value of one hexadecimal digit, as `encoding/hex` reads it (both cases). -/
def fromHexChar (c : Char) : Option Nat :=
  if '0' ≤ c ∧ c ≤ '9' then some (c.toNat - '0'.toNat)
  else if 'a' ≤ c ∧ c ≤ 'f' then some (c.toNat - 'a'.toNat + 10)
  else if 'A' ≤ c ∧ c ≤ 'F' then some (c.toNat - 'A'.toNat + 10)
  else none

/-- The function `hex.Decode`: two digits per byte, failing on any character
that is not a hexadecimal digit. -/
def hexDecode : List Char → Option (List Nat)
  | [] => some []
  | [_] => none
  | a :: b :: rest =>
    match fromHexChar a, fromHexChar b, hexDecode rest with
    | some hi, some lo, some bs => some ((hi * 16 + lo) :: bs)
    | _, _, _ => none

/-- The error `bson.ErrInvalidHex`. -/
def ErrInvalidHex : String := "the provided hex string is not a valid ObjectID"

/-- The function `bson.ObjectIDFromHex`: the string must be 24 bytes long and
decode as hexadecimal. -/
def ObjectIDFromHex (s : String) : Except String ObjectID :=
  if s.utf8ByteSize ≠ 24 then Except.error ErrInvalidHex
  else
    match hexDecode s.data with
    | none => Except.error "encoding/hex: invalid byte"
    | some bs => Except.ok ⟨bs⟩

/-- The call `ctx.BindJSON(&todo)` on `todo := new(Todo)`. The argument is a
pointer to the pointer `todo`. For an object, keys present in the payload
overwrite the zero value of their field. For the payload `null` the decoder
sets the pointer `todo` to nil without an error, and gin's validator, which
runs after decoding, panics on the nil pointer. -/
def BindJSON : RequestBody → Bound
  | RequestBody.malformed err => Bound.error err
  | RequestBody.null => Bound.panic
  | RequestBody.json p =>
    Bound.ok ⟨p.id.getD NilObjectID, p.completed.getD false, p.body.getD ""⟩

/-- The documents a cursor of `Find` with the empty filter delivers before
`Next` returns false: all of them, or those before the position where fetching
the next one failed. -/
def cursorDocs (o : Outcome) (s : Store) : List Todo :=
  match o.cursorBreak with
  | none => s
  | some n => s.take n

/-- The error text of the server on a second document with the same `_id`. -/
def ErrDuplicateKey : String := "E11000 duplicate key error"

/-- The call `collection.InsertOne`. The field `ID` is tagged `omitempty`, so a
zero id is left out of the document and the driver generates one; the server
refuses a document whose `_id` is already in the collection. -/
def InsertOne (o : Outcome) (todo : Todo) (s : Store) : Except String (ObjectID × Store) :=
  match o.insertErr with
  | some e => Except.error e
  | none =>
    let id := if todo.ID.IsZero then o.newID else todo.ID
    if s.any (fun d => decide (d.ID = id)) then Except.error ErrDuplicateKey
    else Except.ok (id, s ++ [{ todo with ID := id }])

/-- The write of `UpdateOne` with filter `_id = id` and update
`$set completed = c`: the first matching document gets the value. -/
def setCompleted (id : ObjectID) (c : Bool) : Store → Store
  | [] => []
  | d :: ds =>
    if d.ID = id then { d with Completed := c } :: ds
    else d :: setCompleted id c ds

/-- The call `collection.UpdateOne`. -/
def UpdateOne (o : Outcome) (id : ObjectID) (c : Bool) (s : Store) : Except String Store :=
  match o.updateErr with
  | some e => Except.error e
  | none => Except.ok (setCompleted id c s)

/-- The write of `DeleteOne` with filter `_id = id`: the first matching document is removed. -/
def removeFirst (id : ObjectID) : Store → Store
  | [] => []
  | d :: ds => if d.ID = id then ds else d :: removeFirst id ds

/-- The call `collection.DeleteOne`. -/
def DeleteOne (o : Outcome) (id : ObjectID) (s : Store) : Except String Store :=
  match o.deleteErr with
  | some e => Except.error e
  | none => Except.ok (removeFirst id s)

/-- The call `collection.DeleteMany` with the empty filter. -/
def DeleteMany (o : Outcome) (_s : Store) : Except String Store :=
  match o.deleteErr with
  | some e => Except.error e
  | none => Except.ok []

/-! ## Handlers of `main.go` -/

/-- The function `returnErr`: status 400 with the error text as message. -/
def returnErr (err : String) : Response := ⟨400, JSON.message err⟩

/-- The answer of the Recovery middleware, which `gin.Default()` installs, to a
panic in a handler: status 500 and no body. -/
def Recovery : Response := ⟨500, JSON.empty⟩

/-- Loop of `getTodoes`: decode each delivered document and append it to `todos`. -/
def getTodoesLoop (o : Outcome) : List Todo → Nat → TodoSlice → Response
  | [], _, todos => ⟨200, renderTodos todos⟩
  | d :: rest, i, todos =>
    match o.decodeErr i with
    | some e => ⟨400, JSON.message e⟩
    | none => getTodoesLoop o rest (i + 1) (todos.append d)

/-- Handler `getTodoes` (GET /todos). -/
def getTodoes (o : Outcome) (s : Store) : Result :=
  match o.findErr with
  | some e => ⟨returnErr e, s, [Call.find]⟩
  | none => ⟨getTodoesLoop o (cursorDocs o s) 0 none, s, [Call.find]⟩

/-- Handler `createTodo` (POST /todos). -/
def createTodo (o : Outcome) (req : RequestBody) (s : Store) : Result :=
  match BindJSON req with
  | Bound.error e => ⟨returnErr e, s, []⟩
  | Bound.panic => ⟨Recovery, s, []⟩
  | Bound.ok todo =>
    if todo.Body = "" then ⟨⟨400, JSON.message "body can not be empty"⟩, s, []⟩
    else
      match InsertOne o todo s with
      | Except.error e => ⟨returnErr e, s, [Call.insertOne todo]⟩
      | Except.ok (insertedID, s') =>
        ⟨⟨200, JSON.todo { todo with ID := insertedID }⟩, s', [Call.insertOne todo]⟩

/-- Loop of `updateTodo`: scan the delivered documents for the one whose id is
`objectId` and write the negation of its `completed`. -/
def updateTodoLoop (o : Outcome) (objectId : ObjectID) (s : Store) : List Todo → Nat → Result
  | [], _ => ⟨⟨400, JSON.message "no entity was found"⟩, s, [Call.find]⟩
  | todo :: rest, i =>
    match o.decodeErr i with
    | some e => ⟨returnErr e, s, [Call.find]⟩
    | none =>
      if todo.ID = objectId then
        match UpdateOne o objectId (!todo.Completed) s with
        | Except.error e =>
          ⟨returnErr e, s, [Call.find, Call.updateOne objectId (!todo.Completed)]⟩
        | Except.ok s' =>
          ⟨⟨200, JSON.message "succesfully updatedy"⟩, s',
            [Call.find, Call.updateOne objectId (!todo.Completed)]⟩
      else updateTodoLoop o objectId s rest (i + 1)

/-- Handler `updateTodo` (PUT /todos/:id): `Find` comes first, then the id is parsed. -/
def updateTodo (o : Outcome) (id : String) (s : Store) : Result :=
  match o.findErr with
  | some e => ⟨returnErr e, s, [Call.find]⟩
  | none =>
    match ObjectIDFromHex id with
    | Except.error e => ⟨returnErr e, s, [Call.find]⟩
    | Except.ok objectId => updateTodoLoop o objectId s (cursorDocs o s) 0

/-- Handler `deleteTodo` (DELETE /todos/:id). -/
def deleteTodo (o : Outcome) (id : String) (s : Store) : Result :=
  match ObjectIDFromHex id with
  | Except.error e => ⟨returnErr e, s, []⟩
  | Except.ok objectid =>
    match DeleteOne o objectid s with
    | Except.error e => ⟨returnErr e, s, [Call.deleteOne objectid]⟩
    | Except.ok s' => ⟨⟨200, JSON.message "deleted succesfully"⟩, s', [Call.deleteOne objectid]⟩

/-- Handler `deleteTodoAll` (DELETE /todos). -/
def deleteTodoAll (o : Outcome) (s : Store) : Result :=
  match DeleteMany o s with
  | Except.error e => ⟨returnErr e, s, [Call.deleteMany]⟩
  | Except.ok s' => ⟨⟨200, JSON.message "deleted succesfully"⟩, s', [Call.deleteMany]⟩

/-! ## Vocabulary of the statements -/

/-- An outcome in which no driver call fails and the driver would generate `newID`. -/
def Outcome.ok (newID : ObjectID) : Outcome :=
  ⟨none, none, fun _ => none, none, none, none, newID⟩

/-- No two documents of the collection share an id. -/
def UniqueIds (s : Store) : Prop := (s.map Todo.ID).Nodup

instance (s : Store) : Decidable (UniqueIds s) :=
  inferInstanceAs (Decidable (s.map Todo.ID).Nodup)

/-- The invariant of the data model: every body is non-empty and ids are unique. -/
def StoreInv (s : Store) : Prop := (∀ t ∈ s, t.Body ≠ "") ∧ UniqueIds s

instance (s : Store) : Decidable (StoreInv s) :=
  inferInstanceAs (Decidable ((∀ t ∈ s, t.Body ≠ "") ∧ UniqueIds s))

/-- The document with the given id, if the collection has one. -/
def findByID (s : Store) (id : ObjectID) : Option Todo :=
  s.find? (fun d => decide (d.ID = id))

/-- An id whose last byte is `n` and whose other bytes are zero. -/
def oid (n : Nat) : ObjectID := ⟨List.replicate 11 0 ++ [n]⟩

/-- No driver call fails during the request and the cursor delivers every document. -/
def Outcome.NoFailure (o : Outcome) : Prop :=
  o.findErr = none ∧ o.cursorBreak = none ∧ (∀ i, o.decodeErr i = none) ∧
    o.insertErr = none ∧ o.updateErr = none ∧ o.deleteErr = none

/-- An error response: status 400 and a body that is a message object. -/
def Response.IsError (r : Response) : Prop :=
  r.status = 400 ∧ ∃ text, r.body = JSON.message text

/-- The status is 200 or 400, and a response with status 400 carries a message object. -/
def Response.Collapsed (r : Response) : Prop :=
  (r.status = 200 ∨ r.status = 400) ∧ (r.status = 400 → ∃ text, r.body = JSON.message text)

/-! ## Lemmas on the library operations and the loops -/

theorem Outcome.ok_noFailure (n : ObjectID) : (Outcome.ok n).NoFailure :=
  ⟨rfl, rfl, fun _ => rfl, rfl, rfl, rfl⟩

theorem returnErr_isError (e : String) : (returnErr e).IsError :=
  ⟨rfl, e, rfl⟩

theorem getTodoesLoop_some (o : Outcome) (hd : ∀ i, o.decodeErr i = none) :
    ∀ (docs : List Todo) (i : Nat) (ts : List Todo),
      getTodoesLoop o docs i (some ts) = ⟨200, JSON.array (ts ++ docs)⟩ := by
  intro docs
  induction docs with
  | nil => intro i ts; simp [getTodoesLoop, renderTodos]
  | cons d rest ih =>
    intro i ts
    simp [getTodoesLoop, hd, TodoSlice.append, ih]

theorem getTodoesLoop_none (o : Outcome) (hd : ∀ i, o.decodeErr i = none)
    (d : Todo) (rest : List Todo) (i : Nat) :
    getTodoesLoop o (d :: rest) i none = ⟨200, JSON.array (d :: rest)⟩ := by
  simp [getTodoesLoop, hd, TodoSlice.append, getTodoesLoop_some o hd]

/-- Whatever the outcome, an array sent by the loop is the accumulated slice
followed by all delivered documents. -/
theorem getTodoesLoop_array (o : Outcome) :
    ∀ (docs : List Todo) (i : Nat) (acc : TodoSlice) (ts : List Todo),
      (getTodoesLoop o docs i acc).body = JSON.array ts → ts = acc.getD [] ++ docs := by
  intro docs
  induction docs with
  | nil =>
    intro i acc ts h
    cases acc with
    | none => simp [getTodoesLoop, renderTodos] at h
    | some l => simpa [getTodoesLoop, renderTodos, eq_comm] using h
  | cons d rest ih =>
    intro i acc ts h
    unfold getTodoesLoop at h
    cases hdec : o.decodeErr i with
    | some e => simp [hdec] at h
    | none =>
      simp only [hdec] at h
      have := ih _ _ _ h
      cases acc with
      | none => simpa [TodoSlice.append] using this
      | some l => simpa [TodoSlice.append] using this

theorem getTodoesLoop_status (o : Outcome) :
    ∀ (docs : List Todo) (i : Nat) (acc : TodoSlice),
      (getTodoesLoop o docs i acc).status = 200 ∨ (getTodoesLoop o docs i acc).IsError := by
  intro docs
  induction docs with
  | nil => intro i acc; left; rfl
  | cons d rest ih =>
    intro i acc
    unfold getTodoesLoop
    cases hdec : o.decodeErr i with
    | some e => right; exact ⟨rfl, e, rfl⟩
    | none => exact ih _ _

theorem cursorDocs_subset (o : Outcome) (s : Store) : cursorDocs o s ⊆ s := by
  unfold cursorDocs
  cases o.cursorBreak with
  | none => exact fun _ h => h
  | some n => exact fun _ h => List.mem_of_mem_take h

/-- A successful `InsertOne` appends the document under the returned id, and
that id was not in the collection. -/
theorem InsertOne_ok {o : Outcome} {todo : Todo} {s s2 : Store} {id : ObjectID}
    (h : InsertOne o todo s = Except.ok (id, s2)) :
    s2 = s ++ [{ todo with ID := id }] ∧ ∀ d ∈ s, d.ID ≠ id := by
  unfold InsertOne at h
  cases hi : o.insertErr with
  | some e => simp [hi] at h
  | none =>
    simp only [hi] at h
    by_cases hdup : (s.any fun d => decide (d.ID = if todo.ID.IsZero then o.newID else todo.ID)) = true
    · simp [hdup] at h
    · simp only [hdup, Bool.false_eq_true, if_false, Except.ok.injEq, Prod.mk.injEq] at h
      obtain ⟨h1, h2⟩ := h
      subst h1
      refine ⟨h2.symm, ?_⟩
      intro d hd heq
      apply hdup
      simp only [List.any_eq_true, decide_eq_true_eq]
      exact ⟨d, hd, heq⟩

theorem setCompleted_map_ID (id : ObjectID) (c : Bool) (s : Store) :
    (setCompleted id c s).map Todo.ID = s.map Todo.ID := by
  induction s with
  | nil => rfl
  | cons d ds ih =>
    unfold setCompleted
    split <;> simp [ih]

theorem setCompleted_body (id : ObjectID) (c : Bool) (s : Store) (t : Todo)
    (h : t ∈ setCompleted id c s) : ∃ d ∈ s, d.Body = t.Body := by
  induction s with
  | nil => simp [setCompleted] at h
  | cons d ds ih =>
    unfold setCompleted at h
    split at h
    · rcases List.mem_cons.1 h with h | h
      · exact ⟨d, List.mem_cons_self _ _, by rw [h]⟩
      · exact ⟨t, List.mem_cons_of_mem _ h, rfl⟩
    · rcases List.mem_cons.1 h with h | h
      · exact ⟨d, List.mem_cons_self _ _, by rw [h]⟩
      · obtain ⟨x, hx, hxb⟩ := ih h
        exact ⟨x, List.mem_cons_of_mem _ hx, hxb⟩

/-- The write of `UpdateOne` keeps every document in place, with its id and
body, and keeps entirely every document whose id is not the filter id. -/
theorem setCompleted_frame (id : ObjectID) (c : Bool) (s : Store) :
    List.Forall₂ (fun a b : Todo => a.ID = b.ID ∧ a.Body = b.Body ∧ (a.ID ≠ id → a = b))
      s (setCompleted id c s) := by
  induction s with
  | nil => exact List.Forall₂.nil
  | cons d ds ih =>
    unfold setCompleted
    split
    · rename_i h
      refine List.Forall₂.cons ⟨rfl, rfl, fun hne => absurd h hne⟩ ?_
      exact List.forall₂_same.2 (fun x _ => ⟨rfl, rfl, fun _ => rfl⟩)
    · exact List.Forall₂.cons ⟨rfl, rfl, fun _ => rfl⟩ ih

theorem findByID_setCompleted (id : ObjectID) (c : Bool) (s : Store) :
    findByID (setCompleted id c s) id =
      (findByID s id).map (fun d => { d with Completed := c }) := by
  induction s with
  | nil => rfl
  | cons d ds ih =>
    unfold setCompleted
    by_cases h : d.ID = id
    · simp [findByID, h]
    · simp only [h, if_false]
      simpa [findByID, h] using ih

theorem setCompleted_idem (id : ObjectID) (c c2 : Bool) (s : Store) :
    setCompleted id c (setCompleted id c2 s) = setCompleted id c s := by
  induction s with
  | nil => rfl
  | cons d ds ih =>
    by_cases h : d.ID = id
    · simp [setCompleted, h]
    · simp [setCompleted, h, ih]

theorem setCompleted_self (id : ObjectID) (s : Store) (d : Todo)
    (h : findByID s id = some d) : setCompleted id d.Completed s = s := by
  induction s with
  | nil => rfl
  | cons x xs ih =>
    by_cases hx : x.ID = id
    · simp [findByID, hx] at h
      subst h
      subst hx
      simp [setCompleted]
    · simp [findByID, hx] at h
      simp [setCompleted, hx, ih h]

theorem findByID_of_mem_unique (s : Store) (t : Todo) (hu : UniqueIds s) (ht : t ∈ s) :
    findByID s t.ID = some t := by
  induction s with
  | nil => simp at ht
  | cons x xs ih =>
    unfold UniqueIds at hu
    simp only [List.map_cons, List.nodup_cons, List.mem_map, not_exists, not_and] at hu
    rcases List.mem_cons.1 ht with h | h
    · subst h
      simp [findByID]
    · have hne : x.ID ≠ t.ID := fun he => hu.1 t h he.symm
      simpa [findByID, hne] using ih hu.2 h

/-- The loop of `updateTodo` when decoding and `UpdateOne` do not fail: the
first delivered document with the id decides the written value. -/
theorem updateTodoLoop_noFailure (o : Outcome) (objectId : ObjectID) (s : Store)
    (hd : ∀ i, o.decodeErr i = none) (hu : o.updateErr = none) :
    ∀ (docs : List Todo) (i : Nat),
      updateTodoLoop o objectId s docs i =
        match findByID docs objectId with
        | some d =>
          ⟨⟨200, JSON.message "succesfully updatedy"⟩,
            setCompleted objectId (!d.Completed) s,
            [Call.find, Call.updateOne objectId (!d.Completed)]⟩
        | none => ⟨⟨400, JSON.message "no entity was found"⟩, s, [Call.find]⟩ := by
  intro docs
  induction docs with
  | nil => intro i; rfl
  | cons d rest ih =>
    intro i
    unfold updateTodoLoop
    by_cases h : d.ID = objectId
    · simp [hd, h, UpdateOne, hu, findByID]
    · simp only [hd, h, if_false]
      rw [ih]
      simp [findByID, h]

/-- Whatever the outcome, the loop of `updateTodo` leaves the collection as it
was or performs one write of `completed` under the id. -/
theorem updateTodoLoop_store (o : Outcome) (objectId : ObjectID) (s : Store) :
    ∀ (docs : List Todo) (i : Nat),
      (updateTodoLoop o objectId s docs i).store = s ∨
        ∃ c, (updateTodoLoop o objectId s docs i).store = setCompleted objectId c s := by
  intro docs
  induction docs with
  | nil => intro i; left; rfl
  | cons d rest ih =>
    intro i
    unfold updateTodoLoop
    cases o.decodeErr i with
    | some e => left; rfl
    | none =>
      by_cases h : d.ID = objectId
      · simp only [h, if_true, UpdateOne]
        cases o.updateErr with
        | some e => left; rfl
        | none => right; exact ⟨_, rfl⟩
      · simp only [h, if_false]
        exact ih _

theorem updateTodo_store (o : Outcome) (id : String) (s : Store) :
    (updateTodo o id s).store = s ∨
      ∃ objectId c, ObjectIDFromHex id = Except.ok objectId ∧
        (updateTodo o id s).store = setCompleted objectId c s := by
  unfold updateTodo
  cases o.findErr with
  | some e => left; rfl
  | none =>
    cases hp : ObjectIDFromHex id with
    | error e => left; rfl
    | ok objectId =>
      rcases updateTodoLoop_store o objectId s (cursorDocs o s) 0 with h | ⟨c, h⟩
      · left; exact h
      · right; exact ⟨objectId, c, rfl, h⟩

theorem removeFirst_sublist (id : ObjectID) (s : Store) : (removeFirst id s).Sublist s := by
  induction s with
  | nil => exact List.Sublist.slnil
  | cons d ds ih =>
    unfold removeFirst
    split
    · exact List.sublist_cons_self d ds
    · exact List.Sublist.cons₂ d ih

/-- With unique ids the write of `DeleteOne` removes every document with the id. -/
theorem removeFirst_eq_filter (id : ObjectID) (s : Store) (hu : UniqueIds s) :
    removeFirst id s = s.filter (fun d => decide (d.ID ≠ id)) := by
  induction s with
  | nil => rfl
  | cons d ds ih =>
    unfold UniqueIds at hu
    simp only [List.map_cons, List.nodup_cons, List.mem_map, not_exists, not_and] at hu
    by_cases h : d.ID = id
    · have hall : ∀ x ∈ ds, decide (x.ID ≠ id) = true := by
        intro x hx
        simp only [decide_eq_true_eq]
        intro hxe
        exact hu.1 x hx (hxe.trans h.symm)
      have e1 : (d :: ds).filter (fun d => decide (d.ID ≠ id)) =
          ds.filter (fun d => decide (d.ID ≠ id)) := by
        simp [List.filter_cons, h]
      rw [e1, List.filter_eq_self.2 hall]
      simp [removeFirst, h]
    · simp [removeFirst, h, ih hu.2]

/-! ## Creating -/

/-- For a JSON object whose `body` key is absent or the empty string, createTodo
answers status 400 (message "body can not be empty"), the collection is the one
before the request and no call reaches the store. -/
theorem createTodo_empty_body_object (o : Outcome) (p : Payload) (s : Store)
    (h : p.body = none ∨ p.body = some "") :
    (createTodo o (RequestBody.json p) s).resp =
        ⟨400, JSON.message "body can not be empty"⟩ ∧
      (createTodo o (RequestBody.json p) s).store = s ∧
      (createTodo o (RequestBody.json p) s).calls = [] := by
  rcases h with h | h <;> simp [createTodo, BindJSON, h]

/-- C1 (what the code does): the payload `null` parses and carries no `body`,
yet createTodo does not answer 400: `BindJSON` panics on the nil pointer and the
Recovery middleware answers status 500 without a body. The collection is the
one before the request and no call reaches the store. -/
theorem createTodo_null_payload_answers_500 (o : Outcome) (s : Store) :
    (createTodo o RequestBody.null s).resp = ⟨500, JSON.empty⟩ ∧
      (createTodo o RequestBody.null s).resp.status ≠ 400 ∧
      (createTodo o RequestBody.null s).store = s ∧
      (createTodo o RequestBody.null s).calls = [] :=
  ⟨rfl, fun h => by have h5 : (500 : Nat) = 400 := h; omega, rfl, rfl⟩

/-- C2: for a payload with a non-empty `body` and no `completed` key, when
`InsertOne` succeeds with id `id`, createTodo answers 200 with the Todo
(id, completed=false, body); the GET that follows, when its find, cursor and
decoding do not fail, answers 200 with the array of the collection, which is
the old documents followed by exactly that Todo. -/
theorem createTodo_then_getTodoes (o o2 : Outcome) (p : Payload) (b : String) (s s2 : Store)
    (id : ObjectID) (hb : p.body = some b) (hne : b ≠ "") (hc : p.completed = none)
    (hins : InsertOne o ⟨p.id.getD NilObjectID, false, b⟩ s = Except.ok (id, s2))
    (hf : o2.findErr = none) (hcb : o2.cursorBreak = none) (hd : ∀ i, o2.decodeErr i = none) :
    (createTodo o (RequestBody.json p) s).resp = ⟨200, JSON.todo ⟨id, false, b⟩⟩ ∧
      (createTodo o (RequestBody.json p) s).store = s ++ [⟨id, false, b⟩] ∧
      (getTodoes o2 (createTodo o (RequestBody.json p) s).store).resp =
        ⟨200, JSON.array (s ++ [⟨id, false, b⟩])⟩ ∧
      (⟨id, false, b⟩ : Todo) ∈ s ++ [⟨id, false, b⟩] := by
  have hs2 : s2 = s ++ [⟨id, false, b⟩] := (InsertOne_ok hins).1
  subst hs2
  have hcreate : createTodo o (RequestBody.json p) s =
      ⟨⟨200, JSON.todo ⟨id, false, b⟩⟩, s ++ [⟨id, false, b⟩],
        [Call.insertOne ⟨p.id.getD NilObjectID, false, b⟩]⟩ := by
    simp [createTodo, BindJSON, hb, hc, hne, hins]
  refine ⟨by rw [hcreate], by rw [hcreate], ?_, by simp⟩
  rw [hcreate]
  simp only [getTodoes, hf, cursorDocs, hcb]
  cases s with
  | nil => simp [getTodoesLoop_none o2 hd]
  | cons d rest => simp [getTodoesLoop_none o2 hd]

theorem createTodo_then_getTodoes_witness :
    (⟨none, none, some "buy milk"⟩ : Payload).body = some "buy milk" ∧
      (createTodo (Outcome.ok (oid 7)) (RequestBody.json ⟨none, none, some "buy milk"⟩)
          [⟨oid 1, true, "walk"⟩]).resp = ⟨200, JSON.todo ⟨oid 7, false, "buy milk"⟩⟩ ∧
      (createTodo (Outcome.ok (oid 7)) (RequestBody.json ⟨none, none, some "buy milk"⟩)
          [⟨oid 1, true, "walk"⟩]).store =
        [⟨oid 1, true, "walk"⟩] ++ [⟨oid 7, false, "buy milk"⟩] ∧
      (getTodoes (Outcome.ok (oid 8))
          (createTodo (Outcome.ok (oid 7)) (RequestBody.json ⟨none, none, some "buy milk"⟩)
            [⟨oid 1, true, "walk"⟩]).store).resp =
        ⟨200, JSON.array ([⟨oid 1, true, "walk"⟩] ++ [⟨oid 7, false, "buy milk"⟩])⟩ ∧
      (⟨oid 7, false, "buy milk"⟩ : Todo) ∈
        [(⟨oid 1, true, "walk"⟩ : Todo)] ++ [⟨oid 7, false, "buy milk"⟩] :=
  ⟨rfl,
    createTodo_then_getTodoes (Outcome.ok (oid 7)) (Outcome.ok (oid 8))
      ⟨none, none, some "buy milk"⟩ "buy milk" [⟨oid 1, true, "walk"⟩]
      [⟨oid 1, true, "walk"⟩, ⟨oid 7, false, "buy milk"⟩] (oid 7)
      rfl (by decide) rfl (by rfl) rfl rfl (fun _ => rfl)⟩

/-! ## Toggling -/

theorem updateTodo_found (o : Outcome) (id : String) (s : Store) (objectId : ObjectID)
    (d : Todo) (ho : o.NoFailure) (hid : ObjectIDFromHex id = Except.ok objectId)
    (hf : findByID s objectId = some d) :
    updateTodo o id s =
      ⟨⟨200, JSON.message "succesfully updatedy"⟩, setCompleted objectId (!d.Completed) s,
        [Call.find, Call.updateOne objectId (!d.Completed)]⟩ := by
  obtain ⟨hfind, hcb, hdec, -, hupd, -⟩ := ho
  simp only [updateTodo, hfind, hid, cursorDocs, hcb]
  rw [updateTodoLoop_noFailure o objectId s hdec hupd, hf]

/-- C3: in a collection with unique ids, for the hex form `id` of the id of a
record `t`, two PUT requests in a row whose store calls do not fail both answer
200; after the first the record is `t` with `completed` negated, after the
second the record is `t` again (and the whole collection is as at the start). -/
theorem updateTodo_twice_restores (o1 o2 : Outcome) (id : String) (s : Store) (t : Todo)
    (hu : UniqueIds s) (ht : t ∈ s) (hid : ObjectIDFromHex id = Except.ok t.ID)
    (h1 : o1.NoFailure) (h2 : o2.NoFailure) :
    (updateTodo o1 id s).resp = ⟨200, JSON.message "succesfully updatedy"⟩ ∧
      findByID (updateTodo o1 id s).store t.ID = some { t with Completed := !t.Completed } ∧
      (updateTodo o2 id (updateTodo o1 id s).store).resp =
        ⟨200, JSON.message "succesfully updatedy"⟩ ∧
      findByID (updateTodo o2 id (updateTodo o1 id s).store).store t.ID = some t ∧
      (updateTodo o2 id (updateTodo o1 id s).store).store = s := by
  have hf : findByID s t.ID = some t := findByID_of_mem_unique s t hu ht
  have e1 := updateTodo_found o1 id s t.ID t h1 hid hf
  have hf1 : findByID (setCompleted t.ID (!t.Completed) s) t.ID =
      some { t with Completed := !t.Completed } := by
    rw [findByID_setCompleted, hf]; rfl
  have e2 := updateTodo_found o2 id _ t.ID _ h2 hid hf1
  have hback : setCompleted t.ID (!!t.Completed) (setCompleted t.ID (!t.Completed) s) = s := by
    rw [setCompleted_idem, Bool.not_not]
    exact setCompleted_self t.ID s t hf
  rw [e1]
  refine ⟨rfl, hf1, ?_, ?_, ?_⟩
  · rw [e2]
  · rw [e2]; simp only; rw [hback]; exact hf
  · rw [e2]; simp only; exact hback

theorem updateTodo_twice_restores_witness :
    UniqueIds [⟨oid 1, false, "buy milk"⟩, ⟨oid 2, true, "walk"⟩] ∧
      (updateTodo (Outcome.ok (oid 7)) "000000000000000000000002"
          [⟨oid 1, false, "buy milk"⟩, ⟨oid 2, true, "walk"⟩]).resp =
        ⟨200, JSON.message "succesfully updatedy"⟩ ∧
      findByID (updateTodo (Outcome.ok (oid 7)) "000000000000000000000002"
          [⟨oid 1, false, "buy milk"⟩, ⟨oid 2, true, "walk"⟩]).store (oid 2) =
        some ⟨oid 2, false, "walk"⟩ ∧
      (updateTodo (Outcome.ok (oid 8)) "000000000000000000000002"
          (updateTodo (Outcome.ok (oid 7)) "000000000000000000000002"
            [⟨oid 1, false, "buy milk"⟩, ⟨oid 2, true, "walk"⟩]).store).resp =
        ⟨200, JSON.message "succesfully updatedy"⟩ ∧
      findByID (updateTodo (Outcome.ok (oid 8)) "000000000000000000000002"
          (updateTodo (Outcome.ok (oid 7)) "000000000000000000000002"
            [⟨oid 1, false, "buy milk"⟩, ⟨oid 2, true, "walk"⟩]).store).store (oid 2) =
        some ⟨oid 2, true, "walk"⟩ ∧
      (updateTodo (Outcome.ok (oid 8)) "000000000000000000000002"
          (updateTodo (Outcome.ok (oid 7)) "000000000000000000000002"
            [⟨oid 1, false, "buy milk"⟩, ⟨oid 2, true, "walk"⟩]).store).store =
        [⟨oid 1, false, "buy milk"⟩, ⟨oid 2, true, "walk"⟩] :=
  ⟨by decide,
    updateTodo_twice_restores (Outcome.ok (oid 7)) (Outcome.ok (oid 8))
      "000000000000000000000002" [⟨oid 1, false, "buy milk"⟩, ⟨oid 2, true, "walk"⟩]
      ⟨oid 2, true, "walk"⟩ (by decide) (by decide) rfl
      (Outcome.ok_noFailure (oid 7)) (Outcome.ok_noFailure (oid 8))⟩

/-- C6: for a well-formed id that no record of the collection carries, when
find and decoding do not fail, PUT answers status 400 with the message
"no entity was found", leaves the collection as it was and issues no write. -/
theorem updateTodo_not_found (o : Outcome) (id : String) (objectId : ObjectID) (s : Store)
    (hid : ObjectIDFromHex id = Except.ok objectId) (hno : ∀ t ∈ s, t.ID ≠ objectId)
    (hfind : o.findErr = none) (hdec : ∀ i, o.decodeErr i = none) :
    (updateTodo o id s).resp = ⟨400, JSON.message "no entity was found"⟩ ∧
      (updateTodo o id s).store = s ∧ (updateTodo o id s).calls = [Call.find] := by
  have key : ∀ (docs : List Todo) (i : Nat), (∀ t ∈ docs, t.ID ≠ objectId) →
      updateTodoLoop o objectId s docs i =
        ⟨⟨400, JSON.message "no entity was found"⟩, s, [Call.find]⟩ := by
    intro docs
    induction docs with
    | nil => intro i _; rfl
    | cons d rest ih =>
      intro i hall
      unfold updateTodoLoop
      have hd : d.ID ≠ objectId := hall d (List.mem_cons_self _ _)
      simp only [hdec, hd, if_false]
      exact ih _ (fun t ht => hall t (List.mem_cons_of_mem _ ht))
  simp only [updateTodo, hfind, hid]
  rw [key _ 0 (fun t ht => hno t (cursorDocs_subset o s ht))]
  exact ⟨rfl, rfl, rfl⟩

theorem updateTodo_not_found_witness :
    ObjectIDFromHex "0000000000000000000000ff" = Except.ok (oid 255) ∧
      (updateTodo (Outcome.ok (oid 7)) "0000000000000000000000ff"
          [⟨oid 1, false, "buy milk"⟩, ⟨oid 2, true, "walk"⟩]).resp =
        ⟨400, JSON.message "no entity was found"⟩ ∧
      (updateTodo (Outcome.ok (oid 7)) "0000000000000000000000ff"
          [⟨oid 1, false, "buy milk"⟩, ⟨oid 2, true, "walk"⟩]).store =
        [⟨oid 1, false, "buy milk"⟩, ⟨oid 2, true, "walk"⟩] ∧
      (updateTodo (Outcome.ok (oid 7)) "0000000000000000000000ff"
          [⟨oid 1, false, "buy milk"⟩, ⟨oid 2, true, "walk"⟩]).calls = [Call.find] :=
  ⟨rfl,
    updateTodo_not_found (Outcome.ok (oid 7)) "0000000000000000000000ff" (oid 255)
      [⟨oid 1, false, "buy milk"⟩, ⟨oid 2, true, "walk"⟩] rfl (by decide) rfl (fun _ => rfl)⟩

/-- C10: whatever the outcome and the path id, PUT keeps the number of records
and keeps every record in place with its `id` and `body`; a record whose id is
not the parsed path id is identical before and after. -/
theorem updateTodo_frame (o : Outcome) (id : String) (s : Store) :
    (updateTodo o id s).store.length = s.length ∧
      List.Forall₂
        (fun a b : Todo =>
          a.ID = b.ID ∧ a.Body = b.Body ∧ (ObjectIDFromHex id ≠ Except.ok a.ID → a = b))
        s (updateTodo o id s).store := by
  have hrel : List.Forall₂
      (fun a b : Todo =>
        a.ID = b.ID ∧ a.Body = b.Body ∧ (ObjectIDFromHex id ≠ Except.ok a.ID → a = b))
      s (updateTodo o id s).store := by
    rcases updateTodo_store o id s with h | ⟨objectId, c, hid, h⟩
    · rw [h]
      exact List.forall₂_same.2 (fun x _ => ⟨rfl, rfl, fun _ => rfl⟩)
    · rw [h]
      refine List.Forall₂.imp ?_ (setCompleted_frame objectId c s)
      intro a b hab
      refine ⟨hab.1, hab.2.1, fun hne => hab.2.2 ?_⟩
      intro he
      apply hne
      rw [hid, he]
  exact ⟨hrel.length_eq.symm, hrel⟩

/-! ## Deleting -/

/-- C4: in a collection with unique ids (the store keeps `_id` unique), for a
well-formed id and a `DeleteOne` that does not fail, DELETE /todos/:id answers
200 with "deleted succesfully", whether or not a record had the id; the
collection afterwards is the old one without the records of that id, in the
same order; and no array a following GET sends contains a record of that id. -/
theorem deleteTodo_removes_only_that_record (o o2 : Outcome) (id : String)
    (objectid : ObjectID) (s : Store) (hu : UniqueIds s)
    (hid : ObjectIDFromHex id = Except.ok objectid) (hdel : o.deleteErr = none) :
    (deleteTodo o id s).resp = ⟨200, JSON.message "deleted succesfully"⟩ ∧
      (deleteTodo o id s).store = s.filter (fun d => decide (d.ID ≠ objectid)) ∧
      (∀ t, t ∈ (deleteTodo o id s).store ↔ t ∈ s ∧ t.ID ≠ objectid) ∧
      ∀ ts, (getTodoes o2 (deleteTodo o id s).store).resp.body = JSON.array ts →
        ∀ t ∈ ts, t.ID ≠ objectid := by
  have hstore : (deleteTodo o id s).store = s.filter (fun d => decide (d.ID ≠ objectid)) := by
    simp only [deleteTodo, hid, DeleteOne, hdel]
    exact removeFirst_eq_filter objectid s hu
  refine ⟨by simp only [deleteTodo, hid, DeleteOne, hdel], hstore, ?_, ?_⟩
  · intro t
    rw [hstore]
    simp [List.mem_filter]
  · intro ts hts t ht
    rw [hstore] at hts
    unfold getTodoes at hts
    cases hf : o2.findErr with
    | some e => simp [hf, returnErr] at hts
    | none =>
      simp only [hf] at hts
      have := getTodoesLoop_array o2 _ _ _ _ hts
      rw [this] at ht
      simp only [Option.getD_none, List.nil_append] at ht
      have hmem := cursorDocs_subset o2 _ ht
      simpa using (List.mem_filter.1 hmem).2

theorem deleteTodo_removes_only_that_record_witness :
    UniqueIds [⟨oid 1, false, "buy milk"⟩, ⟨oid 2, true, "walk"⟩, ⟨oid 3, false, "read"⟩] ∧
      (deleteTodo (Outcome.ok (oid 7)) "000000000000000000000002"
          [⟨oid 1, false, "buy milk"⟩, ⟨oid 2, true, "walk"⟩, ⟨oid 3, false, "read"⟩]).resp =
        ⟨200, JSON.message "deleted succesfully"⟩ ∧
      (deleteTodo (Outcome.ok (oid 7)) "000000000000000000000002"
          [⟨oid 1, false, "buy milk"⟩, ⟨oid 2, true, "walk"⟩, ⟨oid 3, false, "read"⟩]).store =
        [⟨oid 1, false, "buy milk"⟩, ⟨oid 3, false, "read"⟩] :=
  ⟨by decide,
    (deleteTodo_removes_only_that_record (Outcome.ok (oid 7)) (Outcome.ok (oid 8))
      "000000000000000000000002" (oid 2)
      [⟨oid 1, false, "buy milk"⟩, ⟨oid 2, true, "walk"⟩, ⟨oid 3, false, "read"⟩]
      (by decide) rfl rfl).1,
    (deleteTodo_removes_only_that_record (Outcome.ok (oid 7)) (Outcome.ok (oid 8))
      "000000000000000000000002" (oid 2)
      [⟨oid 1, false, "buy milk"⟩, ⟨oid 2, true, "walk"⟩, ⟨oid 3, false, "read"⟩]
      (by decide) rfl rfl).2.1.trans (by decide)⟩

/-- C5 (what the code does): after a DELETE /todos that does not fail the
collection is empty, and the GET that follows answers 200 with the JSON literal
`null`, which is not the empty array: `todos` is still the nil slice when it is
rendered. -/
theorem getTodoes_after_deleteTodoAll_renders_null (s : Store) (n m : ObjectID) :
    (deleteTodoAll (Outcome.ok n) s).resp = ⟨200, JSON.message "deleted succesfully"⟩ ∧
      (deleteTodoAll (Outcome.ok n) s).store = [] ∧
      (getTodoes (Outcome.ok m) (deleteTodoAll (Outcome.ok n) s).store).resp =
        ⟨200, JSON.null⟩ ∧
      (getTodoes (Outcome.ok m) (deleteTodoAll (Outcome.ok n) s).store).resp.body ≠
        JSON.array [] := by
  refine ⟨rfl, rfl, rfl, ?_⟩
  show JSON.null ≠ JSON.array []
  exact fun h => JSON.noConfusion h

/-! ## Malformed ids -/

/-- C7: for a path id that `ObjectIDFromHex` does not accept, PUT and DELETE
both answer status 400 with a message, leave the collection as it was, and
issue no `UpdateOne` and no `DeleteOne` (PUT has issued its `Find` only, DELETE
nothing). -/
theorem malformed_id_rejected (o : Outcome) (id : String) (s : Store)
    (hbad : ∀ x, ObjectIDFromHex id ≠ Except.ok x) :
    ((updateTodo o id s).resp.status = 400 ∧ (updateTodo o id s).resp.IsError ∧
        (updateTodo o id s).store = s ∧ (updateTodo o id s).calls = [Call.find]) ∧
      ((deleteTodo o id s).resp.status = 400 ∧ (deleteTodo o id s).resp.IsError ∧
        (deleteTodo o id s).store = s ∧ (deleteTodo o id s).calls = []) := by
  cases hp : ObjectIDFromHex id with
  | ok x => exact absurd hp (hbad x)
  | error e =>
    have hdel : deleteTodo o id s = ⟨returnErr e, s, []⟩ := by
      simp only [deleteTodo, hp]
    constructor
    · cases hf : o.findErr with
      | some e2 =>
        have hupd : updateTodo o id s = ⟨returnErr e2, s, [Call.find]⟩ := by
          simp only [updateTodo, hf]
        rw [hupd]
        exact ⟨rfl, returnErr_isError e2, rfl, rfl⟩
      | none =>
        have hupd : updateTodo o id s = ⟨returnErr e, s, [Call.find]⟩ := by
          simp only [updateTodo, hf, hp]
        rw [hupd]
        exact ⟨rfl, returnErr_isError e, rfl, rfl⟩
    · rw [hdel]
      exact ⟨rfl, returnErr_isError e, rfl, rfl⟩

theorem malformed_id_rejected_witness :
    (∀ x, ObjectIDFromHex "12345" ≠ Except.ok x) ∧
      ((updateTodo (Outcome.ok (oid 7)) "12345" [⟨oid 1, false, "buy milk"⟩]).resp.status = 400 ∧
        (updateTodo (Outcome.ok (oid 7)) "12345" [⟨oid 1, false, "buy milk"⟩]).resp.IsError ∧
        (updateTodo (Outcome.ok (oid 7)) "12345" [⟨oid 1, false, "buy milk"⟩]).store =
          [⟨oid 1, false, "buy milk"⟩] ∧
        (updateTodo (Outcome.ok (oid 7)) "12345" [⟨oid 1, false, "buy milk"⟩]).calls =
          [Call.find]) ∧
      ((deleteTodo (Outcome.ok (oid 7)) "12345" [⟨oid 1, false, "buy milk"⟩]).resp.status = 400 ∧
        (deleteTodo (Outcome.ok (oid 7)) "12345" [⟨oid 1, false, "buy milk"⟩]).resp.IsError ∧
        (deleteTodo (Outcome.ok (oid 7)) "12345" [⟨oid 1, false, "buy milk"⟩]).store =
          [⟨oid 1, false, "buy milk"⟩] ∧
        (deleteTodo (Outcome.ok (oid 7)) "12345" [⟨oid 1, false, "buy milk"⟩]).calls = []) :=
  ⟨fun x h => Except.noConfusion (h : Except.error ErrInvalidHex = Except.ok x),
    malformed_id_rejected (Outcome.ok (oid 7)) "12345" [⟨oid 1, false, "buy milk"⟩]
      (fun x h => Except.noConfusion (h : Except.error ErrInvalidHex = Except.ok x))⟩

/-! ## Error responses -/

theorem collapsed_returnErr (e : String) : (returnErr e).Collapsed :=
  ⟨Or.inr rfl, fun _ => ⟨e, rfl⟩⟩

theorem collapsed_of_status_200 (r : Response) (h : r.status = 200) : r.Collapsed :=
  ⟨Or.inl h, fun h4 => by rw [h] at h4; exact absurd h4 (by decide)⟩

theorem getTodoesLoop_collapsed (o : Outcome) (docs : List Todo) (i : Nat) (acc : TodoSlice) :
    (getTodoesLoop o docs i acc).Collapsed := by
  rcases getTodoesLoop_status o docs i acc with h | h
  · exact collapsed_of_status_200 _ h
  · exact ⟨Or.inr h.1, fun _ => h.2⟩

theorem getTodoesLoop_decodeErr (o : Outcome) :
    ∀ (docs : List Todo) (k : Nat) (acc : TodoSlice) (i : Nat) (e : String),
      i < docs.length → o.decodeErr (k + i) = some e →
        (getTodoesLoop o docs k acc).status = 400 := by
  intro docs
  induction docs with
  | nil => intro k acc i e hi; simp at hi
  | cons d rest ih =>
    intro k acc i e hi he
    unfold getTodoesLoop
    cases hk : o.decodeErr k with
    | some e2 => rfl
    | none =>
      cases i with
      | zero => rw [Nat.add_zero, hk] at he; cases he
      | succ j =>
        simp only
        apply ih (k + 1) _ j e (by simpa using hi)
        rw [← he]
        congr 1
        omega

theorem updateTodoLoop_collapsed (o : Outcome) (objectId : ObjectID) (s : Store) :
    ∀ (docs : List Todo) (i : Nat), (updateTodoLoop o objectId s docs i).resp.Collapsed := by
  intro docs
  induction docs with
  | nil => intro i; exact ⟨Or.inr rfl, fun _ => ⟨_, rfl⟩⟩
  | cons d rest ih =>
    intro i
    unfold updateTodoLoop
    cases o.decodeErr i with
    | some e => exact collapsed_returnErr e
    | none =>
      by_cases h : d.ID = objectId
      · simp only [h, if_true, UpdateOne]
        cases o.updateErr with
        | some e => exact collapsed_returnErr e
        | none => exact collapsed_of_status_200 _ rfl
      · simp only [h, if_false]
        exact ih _

theorem updateTodoLoop_noMatch (o : Outcome) (objectId : ObjectID) (s : Store) :
    ∀ (docs : List Todo) (i : Nat), (∀ t ∈ docs, t.ID ≠ objectId) →
      (updateTodoLoop o objectId s docs i).resp.status = 400 := by
  intro docs
  induction docs with
  | nil => intro i _; rfl
  | cons d rest ih =>
    intro i hall
    unfold updateTodoLoop
    cases o.decodeErr i with
    | some e => rfl
    | none =>
      have hd : d.ID ≠ objectId := hall d (List.mem_cons_self _ _)
      simp only [hd, if_false]
      exact ih _ (fun t ht => hall t (List.mem_cons_of_mem _ ht))

theorem updateTodoLoop_updateErr (o : Outcome) (objectId : ObjectID) (s : Store) (e : String)
    (he : o.updateErr = some e) :
    ∀ (docs : List Todo) (i : Nat), (updateTodoLoop o objectId s docs i).resp.status = 400 := by
  intro docs
  induction docs with
  | nil => intro i; rfl
  | cons d rest ih =>
    intro i
    unfold updateTodoLoop
    cases o.decodeErr i with
    | some e2 => rfl
    | none =>
      by_cases h : d.ID = objectId
      · simp only [h, if_true, UpdateOne, he]
        rfl
      · simp only [h, if_false]
        exact ih _

theorem updateTodoLoop_decodeErr (o : Outcome) (objectId : ObjectID) (s : Store) :
    ∀ (docs : List Todo) (k i : Nat) (e : String),
      i < docs.length → o.decodeErr (k + i) = some e →
        (∀ t ∈ docs.take i, t.ID ≠ objectId) →
          (updateTodoLoop o objectId s docs k).resp.status = 400 := by
  intro docs
  induction docs with
  | nil => intro k i e hi; simp at hi
  | cons d rest ih =>
    intro k i e hi he hall
    unfold updateTodoLoop
    cases hk : o.decodeErr k with
    | some e2 => rfl
    | none =>
      cases i with
      | zero => rw [Nat.add_zero, hk] at he; cases he
      | succ j =>
        have hd : d.ID ≠ objectId := hall d (by simp)
        simp only [hd, if_false]
        apply ih (k + 1) j e (by simpa using hi)
        · rw [← he]
          congr 1
          omega
        · intro t ht
          exact hall t (by simp [ht])

theorem getTodoes_collapsed (o : Outcome) (s : Store) : (getTodoes o s).resp.Collapsed := by
  unfold getTodoes
  cases o.findErr with
  | some e => exact collapsed_returnErr e
  | none => exact getTodoesLoop_collapsed o _ _ _

theorem createTodo_collapsed (o : Outcome) (req : RequestBody) (s : Store)
    (hreq : req ≠ RequestBody.null) : (createTodo o req s).resp.Collapsed := by
  unfold createTodo
  cases hbind : BindJSON req with
  | error e => exact collapsed_returnErr e
  | panic =>
    cases req with
    | malformed err => simp [BindJSON] at hbind
    | null => exact absurd rfl hreq
    | json p => simp [BindJSON] at hbind
  | ok todo =>
    by_cases hb : todo.Body = ""
    · simp only [hb, if_true]
      exact ⟨Or.inr rfl, fun _ => ⟨_, rfl⟩⟩
    · simp only [hb, if_false]
      cases InsertOne o todo s with
      | error e => exact collapsed_returnErr e
      | ok r => exact collapsed_of_status_200 _ rfl

theorem updateTodo_collapsed (o : Outcome) (id : String) (s : Store) :
    (updateTodo o id s).resp.Collapsed := by
  unfold updateTodo
  cases o.findErr with
  | some e => exact collapsed_returnErr e
  | none =>
    cases ObjectIDFromHex id with
    | error e => exact collapsed_returnErr e
    | ok objectId => exact updateTodoLoop_collapsed o objectId s _ _

theorem deleteTodo_collapsed (o : Outcome) (id : String) (s : Store) :
    (deleteTodo o id s).resp.Collapsed := by
  unfold deleteTodo
  cases ObjectIDFromHex id with
  | error e => exact collapsed_returnErr e
  | ok objectid =>
    simp only [DeleteOne]
    cases o.deleteErr with
    | some e => exact collapsed_returnErr e
    | none => exact collapsed_of_status_200 _ rfl

theorem deleteTodoAll_collapsed (o : Outcome) (s : Store) :
    (deleteTodoAll o s).resp.Collapsed := by
  simp only [deleteTodoAll, DeleteMany]
  cases o.deleteErr with
  | some e => exact collapsed_returnErr e
  | none => exact collapsed_of_status_200 _ rfl

/-- The failures the handlers check give status 400 with a message object, and
the status is 200 or 400: for GET an error of `Find` or of decoding a delivered
document; for POST (payload other than `null`) an unparseable payload, an empty
body, an error of `InsertOne`; for PUT an error of `Find`, a malformed id, no
delivered record with the id, an error of decoding reached before a record with
the id, an error of `UpdateOne`; for DELETE by id a malformed id or an error of
`DeleteOne`; for DELETE of all an error of `DeleteMany`. -/
theorem checked_failures_are_400 (o : Outcome) (req : RequestBody) (id : String) (s : Store) :
    ((getTodoes o s).resp.Collapsed ∧
        (∀ e, o.findErr = some e → (getTodoes o s).resp.status = 400) ∧
        (∀ i e, i < (cursorDocs o s).length → o.decodeErr i = some e →
          (getTodoes o s).resp.status = 400)) ∧
      ((req ≠ RequestBody.null → (createTodo o req s).resp.Collapsed) ∧
        (∀ e, BindJSON req = Bound.error e → (createTodo o req s).resp.status = 400) ∧
        (∀ todo, BindJSON req = Bound.ok todo → todo.Body = "" →
          (createTodo o req s).resp.status = 400) ∧
        (∀ todo e, BindJSON req = Bound.ok todo → InsertOne o todo s = Except.error e →
          (createTodo o req s).resp.status = 400)) ∧
      ((updateTodo o id s).resp.Collapsed ∧
        (∀ e, o.findErr = some e → (updateTodo o id s).resp.status = 400) ∧
        (∀ e, ObjectIDFromHex id = Except.error e → (updateTodo o id s).resp.status = 400) ∧
        (∀ objectId, ObjectIDFromHex id = Except.ok objectId →
          (∀ t ∈ cursorDocs o s, t.ID ≠ objectId) → (updateTodo o id s).resp.status = 400) ∧
        (∀ objectId i e, ObjectIDFromHex id = Except.ok objectId →
          i < (cursorDocs o s).length → o.decodeErr i = some e →
          (∀ t ∈ (cursorDocs o s).take i, t.ID ≠ objectId) →
          (updateTodo o id s).resp.status = 400) ∧
        (∀ e, o.updateErr = some e → (updateTodo o id s).resp.status = 400)) ∧
      ((deleteTodo o id s).resp.Collapsed ∧
        (∀ e, ObjectIDFromHex id = Except.error e → (deleteTodo o id s).resp.status = 400) ∧
        (∀ e, o.deleteErr = some e → (deleteTodo o id s).resp.status = 400)) ∧
      ((deleteTodoAll o s).resp.Collapsed ∧
        (∀ e, o.deleteErr = some e → (deleteTodoAll o s).resp.status = 400)) := by
  refine ⟨⟨getTodoes_collapsed o s, ?_, ?_⟩, ⟨createTodo_collapsed o req s, ?_, ?_, ?_⟩,
    ⟨updateTodo_collapsed o id s, ?_, ?_, ?_, ?_, ?_⟩,
    ⟨deleteTodo_collapsed o id s, ?_, ?_⟩, ⟨deleteTodoAll_collapsed o s, ?_⟩⟩
  · intro e he
    simp only [getTodoes, he]
    rfl
  · intro i e hi he
    unfold getTodoes
    cases o.findErr with
    | some e2 => rfl
    | none => exact getTodoesLoop_decodeErr o _ 0 none i e hi (by rwa [Nat.zero_add])
  · intro e he
    simp only [createTodo, he]
    rfl
  · intro todo hb hempty
    simp only [createTodo, hb, hempty, if_true]
  · intro todo e hb hins
    simp only [createTodo, hb, hins]
    split <;> rfl
  · intro e he
    simp only [updateTodo, he]
    rfl
  · intro e he
    unfold updateTodo
    cases o.findErr with
    | some e2 => rfl
    | none => simp only [he]; rfl
  · intro objectId hid hno
    unfold updateTodo
    cases o.findErr with
    | some e2 => rfl
    | none =>
      simp only [hid]
      exact updateTodoLoop_noMatch o objectId s _ 0 hno
  · intro objectId i e hid hi he hno
    unfold updateTodo
    cases o.findErr with
    | some e2 => rfl
    | none =>
      simp only [hid]
      exact updateTodoLoop_decodeErr o objectId s _ 0 i e hi (by rwa [Nat.zero_add]) hno
  · intro e he
    unfold updateTodo
    cases o.findErr with
    | some e2 => rfl
    | none =>
      cases ObjectIDFromHex id with
      | error e3 => rfl
      | ok objectId => exact updateTodoLoop_updateErr o objectId s e he _ 0
  · intro e he
    simp only [deleteTodo, he]
    rfl
  · intro e he
    unfold deleteTodo
    cases ObjectIDFromHex id with
    | error e3 => rfl
    | ok objectid => simp only [DeleteOne, he]; rfl
  · intro e he
    simp only [deleteTodoAll, DeleteMany, he]
    rfl

/-- C8 (what the code does): two failures are not answered with 400. On the
payload `null` createTodo panics and the answer is status 500 without a body,
which is neither 200 nor 400 and carries no message. When the cursor of
getTodoes stops after the first of two documents because fetching failed, the
answer is status 200 with the array of the first document only. -/
theorem failures_not_answered_400 (o : Outcome) (s : Store) (a b : Todo) (n : ObjectID) :
    ((createTodo o RequestBody.null s).resp = ⟨500, JSON.empty⟩ ∧
        ¬ (createTodo o RequestBody.null s).resp.Collapsed) ∧
      (getTodoes ⟨none, some 1, fun _ => none, none, none, none, n⟩ [a, b]).resp =
        ⟨200, JSON.array [a]⟩ := by
  refine ⟨⟨rfl, ?_⟩, rfl⟩
  intro h
  rcases h.1 with h2 | h4
  · have h5 : (500 : Nat) = 200 := h2
    omega
  · have h5 : (500 : Nat) = 400 := h4
    omega

/-! ## The invariant of the data model -/

theorem storeInv_setCompleted (id : ObjectID) (c : Bool) (s : Store) (h : StoreInv s) :
    StoreInv (setCompleted id c s) := by
  refine ⟨fun t ht => ?_, ?_⟩
  · obtain ⟨d, hd, hb⟩ := setCompleted_body id c s t ht
    rw [← hb]
    exact h.1 d hd
  · unfold UniqueIds
    rw [setCompleted_map_ID]
    exact h.2

theorem storeInv_removeFirst (id : ObjectID) (s : Store) (h : StoreInv s) :
    StoreInv (removeFirst id s) := by
  have hsub := removeFirst_sublist id s
  exact ⟨fun t ht => h.1 t (hsub.subset ht), List.Nodup.sublist (hsub.map Todo.ID) h.2⟩

theorem storeInv_createTodo (o : Outcome) (req : RequestBody) (s : Store) (h : StoreInv s) :
    StoreInv (createTodo o req s).store := by
  unfold createTodo
  cases BindJSON req with
  | error e => exact h
  | panic => exact h
  | ok todo =>
    by_cases hb : todo.Body = ""
    · simp only [hb, if_true]
      exact h
    · simp only [hb, if_false]
      cases hins : InsertOne o todo s with
      | error e => exact h
      | ok r =>
        obtain ⟨insertedID, s2⟩ := r
        obtain ⟨hs2, hfresh⟩ := InsertOne_ok hins
        show StoreInv s2
        subst hs2
        refine ⟨?_, ?_⟩
        · intro t ht
          rcases List.mem_append.1 ht with ht | ht
          · exact h.1 t ht
          · rw [List.mem_singleton.1 ht]
            exact hb
        · unfold UniqueIds
          rw [List.map_append, List.map_singleton]
          refine List.Nodup.append h.2 (List.nodup_singleton _) ?_
          intro x hx hx2
          rw [List.mem_singleton.1 hx2] at hx
          obtain ⟨d, hd, hde⟩ := List.mem_map.1 hx
          exact hfresh d hd hde

/-- C9: the predicate "every record has a non-empty body and no two records
share an id" is kept by every handler, for every request (a POST payload may
carry its own id) and every outcome, whether the request succeeds or fails. -/
theorem storeInv_preserved (o : Outcome) (req : RequestBody) (id : String) (s : Store)
    (h : StoreInv s) :
    StoreInv (getTodoes o s).store ∧ StoreInv (createTodo o req s).store ∧
      StoreInv (updateTodo o id s).store ∧ StoreInv (deleteTodo o id s).store ∧
      StoreInv (deleteTodoAll o s).store := by
  refine ⟨?_, storeInv_createTodo o req s h, ?_, ?_, ?_⟩
  · unfold getTodoes
    cases o.findErr <;> exact h
  · rcases updateTodo_store o id s with hs | ⟨objectId, c, -, hs⟩
    · rw [hs]; exact h
    · rw [hs]; exact storeInv_setCompleted objectId c s h
  · unfold deleteTodo
    cases ObjectIDFromHex id with
    | error e => exact h
    | ok objectid =>
      simp only [DeleteOne]
      cases o.deleteErr with
      | some e => exact h
      | none => exact storeInv_removeFirst objectid s h
  · simp only [deleteTodoAll, DeleteMany]
    cases o.deleteErr with
    | some e => exact h
    | none => exact ⟨fun t ht => by simp at ht, List.nodup_nil⟩

theorem storeInv_preserved_witness :
    StoreInv [⟨oid 1, false, "buy milk"⟩, ⟨oid 2, true, "walk"⟩] ∧
      StoreInv (getTodoes (Outcome.ok (oid 2))
        [⟨oid 1, false, "buy milk"⟩, ⟨oid 2, true, "walk"⟩]).store ∧
      StoreInv (createTodo (Outcome.ok (oid 2)) (RequestBody.json ⟨some (oid 1), none, some "again"⟩)
        [⟨oid 1, false, "buy milk"⟩, ⟨oid 2, true, "walk"⟩]).store ∧
      StoreInv (updateTodo (Outcome.ok (oid 2)) "000000000000000000000001"
        [⟨oid 1, false, "buy milk"⟩, ⟨oid 2, true, "walk"⟩]).store ∧
      StoreInv (deleteTodo (Outcome.ok (oid 2)) "000000000000000000000001"
        [⟨oid 1, false, "buy milk"⟩, ⟨oid 2, true, "walk"⟩]).store ∧
      StoreInv (deleteTodoAll (Outcome.ok (oid 2))
        [⟨oid 1, false, "buy milk"⟩, ⟨oid 2, true, "walk"⟩]).store :=
  ⟨by decide,
    storeInv_preserved (Outcome.ok (oid 2)) (RequestBody.json ⟨some (oid 1), none, some "again"⟩)
      "000000000000000000000001" [⟨oid 1, false, "buy milk"⟩, ⟨oid 2, true, "walk"⟩]
      (by decide)⟩

end Todogolang
